/-
Verification of the position/opposition processing pipeline of the
intuition-mcp-server repository (TypeScript sources under src/).

The TypeScript sources are shallowly embedded: JavaScript strings that may
be null/undefined become `Option String`, JavaScript BigInt values become
`Nat` (shares are non-negative, arbitrary precision), the floating ratio
is modelled exactly as `Rat`, fallible upstream calls become `Except`, and
`Promise.all` over already-started promises becomes an explicit
first-error fold.  Each definition carries a reference to the source
location it embeds.  Two helpers are marked `Modelled from the spec:`
because the file they live in (src/lib/position-utils.ts) is imported by
the sources but is not itself among them.
-/
import Mathlib

/-! ## JavaScript-flavoured primitives shared by the embedded code -/

/-- JS `x || d` for an optional string `x`: both a missing value and the
empty string (falsy in JS) fall back to the default `d`. -/
def jsOrStr (x : Option String) (d : String) : String :=
  match x with
  | none => d
  | some s => if s = "" then d else s

/-- JS `x || y` for two optional strings: a missing or empty `x` yields
`y`, otherwise `x` itself. -/
def jsOrOpt (x y : Option String) : Option String :=
  match x with
  | none => y
  | some s => if s = "" then y else some s

/-- `BigInt(s)` on the decimal share strings used throughout the
repository (shares are serialized as decimal strings of non-negative
arbitrary-precision integers); the empty string is 0 as in JS, and a
string that does not parse (which would throw in JS) is treated as
zero. -/
def parseDecNat (s : String) : Nat :=
  if s.data.all Char.isDigit then
    s.data.foldl (fun acc c => 10 * acc + (c.toNat - 48)) 0
  else 0

/-- JS `String.prototype.toLowerCase` restricted to the ASCII hex
addresses the code applies it to. -/
def jsToLowerCase (s : String) : String :=
  String.mk (s.data.map Char.toLower)

/-- JS `String.prototype.startsWith`. -/
def jsStartsWith (s pre : String) : Bool :=
  s.data.take pre.data.length == pre.data

/-- JS `Math.round` on the exactly-modelled ratio: round half up. -/
def jsRound (q : Rat) : Int :=
  ⌊q + 1 / 2⌋

/-! ## Data model (spec section 3 and 6; GraphQL record shapes)

An atom node as it appears inside a triple: `{ term_id, label, value }`
where `value` carries at most one populated variant field.  The variant
payloads themselves are never inspected by the pipeline beyond presence,
so they are modelled by `Option Unit` presence markers. -/

structure RawAtomValue where
  thing : Option Unit
  account : Option Unit
  person : Option Unit
  organization : Option Unit
deriving DecidableEq

structure RawAtomNode where
  term_id : Option String
  label : Option String
  value : Option RawAtomValue
deriving DecidableEq

/-- A triple record: `{ term_id, counter_term_id, subject, predicate,
object }` (get-account-info.ts only reads `term_id` and the three atom
nodes; the classifier additionally reads `counter_term_id`). -/
structure RawTriple where
  term_id : Option String
  counter_term_id : Option String
  subject : Option RawAtomNode
  predicate : Option RawAtomNode
  object : Option RawAtomNode
deriving DecidableEq

/-! ## processClaimsData (src/operations/get-account-info.ts lines 23-76) -/

/-- The type discriminant chain of `processClaimsData`:
`value?.thing ? 'thing' : value?.account ? 'account' : value?.person ?
'person' : value?.organization ? 'organization' : 'unknown'`. -/
def atomTypeOf (node : Option RawAtomNode) : String :=
  match node.bind RawAtomNode.value with
  | none => "unknown"
  | some v =>
    if v.thing.isSome then "thing"
    else if v.account.isSome then "account"
    else if v.person.isSome then "person"
    else if v.organization.isSome then "organization"
    else "unknown"

/-- The `human_readable` template of get-account-info.ts lines 72-74:
the subject label or `Unknown`, the predicate label or `relates to`, the
object label or `Unknown`, joined by single spaces; the fallbacks use JS
`||`, so they also fire on a present-but-empty label. -/
def tripleHumanText (s p o : Option RawAtomNode) : String :=
  jsOrStr (s.bind RawAtomNode.label) "Unknown" ++ " " ++
    jsOrStr (p.bind RawAtomNode.label) "relates to" ++ " " ++
    jsOrStr (o.bind RawAtomNode.label) "Unknown"

structure ClaimPartView where
  id : Option String
  label : Option String
  type : String
  details : Option RawAtomValue
deriving DecidableEq

structure ProcessedClaim where
  id : Option String
  subjectView : ClaimPartView
  predicateView : ClaimPartView
  objectView : ClaimPartView
  human_readable : String
deriving DecidableEq

/-- One entry of `processClaimsData` (get-account-info.ts lines 26-75). -/
def processClaim (t : RawTriple) : ProcessedClaim :=
  { id := t.term_id
    subjectView :=
      { id := t.subject.bind RawAtomNode.term_id
        label := t.subject.bind RawAtomNode.label
        type := atomTypeOf t.subject
        details := t.subject.bind RawAtomNode.value }
    predicateView :=
      { id := t.predicate.bind RawAtomNode.term_id
        label := t.predicate.bind RawAtomNode.label
        type := atomTypeOf t.predicate
        details := t.predicate.bind RawAtomNode.value }
    objectView :=
      { id := t.object.bind RawAtomNode.term_id
        label := t.object.bind RawAtomNode.label
        type := atomTypeOf t.object
        details := t.object.bind RawAtomNode.value }
    human_readable := tripleHumanText t.subject t.predicate t.object }

/-- `processClaimsData` (get-account-info.ts lines 23-76); the early
return on an empty input coincides with mapping over the empty list. -/
def processClaimsData (triples : List RawTriple) : List ProcessedClaim :=
  triples.map processClaim

/-! ## Position records (spec section 6 input shape) -/

structure RawAccountRef where
  id : String
  label : Option String
  image : Option String
deriving DecidableEq

structure VaultRec where
  term_id : Option String
  position_count : Option Nat
  total_shares : Option String
  current_share_price : Option String
deriving DecidableEq

/-- The term a position stakes: at most one of the atom / triple variant
fields is populated; a term with neither is malformed upstream data. -/
structure TermRec where
  atomNode : Option RawAtomNode
  triple : Option RawTriple
  vaults : List VaultRec
deriving DecidableEq

structure CounterTermRec where
  vaults : List VaultRec
deriving DecidableEq

structure RawPosition where
  id : Option String
  shares : Option String
  account : RawAccountRef
  term : TermRec
  counter_term : Option CounterTermRec
deriving DecidableEq

/-- Shares of a position, parsed as an arbitrary-precision integer with a
missing value treated as zero (spec section 4.1). -/
def positionSharesNat (p : RawPosition) : Nat :=
  match p.shares with
  | none => 0
  | some s => parseDecNat s

/-! ## Position Normalizer and Opposition Classifier

Both live in src/lib/position-utils.ts, which the provided sources import
(get-account-info.ts lines 6-10, get-followers.ts lines 6-9) but which is
not itself among them, so these two are modelled from the spec. -/

/-- Modelled from the spec: `filterZeroSharePositions` of the missing
src/lib/position-utils.ts.  Spec section 4.1: given a sequence of
Positions, return the subsequence where `shares`, parsed as an
arbitrary-precision integer, is strictly greater than zero; absent
`shares` is treated as zero; relative order is preserved; malformed
entries are excluded, never rejected. -/
def filterZeroSharePositions (positions : List RawPosition) : List RawPosition :=
  positions.filter (fun p => decide (0 < positionSharesNat p))

/-- Total shares of the primary-curve vault of a term (first vault of the
list, total_shares parsed as an arbitrary-precision integer, missing
treated as zero). -/
def vaultSharesOf (vaults : List VaultRec) : Nat :=
  match vaults.head? with
  | none => 0
  | some v => parseDecNat (jsOrStr v.total_shares "0")

/-- Modelled from the spec: the opposition ratio of section 4.2, namely
`counterVaultShares / (ownVaultShares + counterVaultShares)` computed
with arbitrary-precision arithmetic promoted to an exact ratio, and 0
when both vault totals are zero (division-by-zero guard). -/
def oppositionRatioOf (own counter : Nat) : Rat :=
  if own + counter = 0 then 0
  else (counter : Rat) / ((own : Rat) + (counter : Rat))

structure OppMetrics where
  ratioOfOpposition : Rat
deriving DecidableEq

/-- Output record of the classifier (spec section 6). -/
structure ProcessedPositionData where
  type : String
  id : Option String
  atom_id : Option String
  triple_id : Option String
  shares : Option String
  positionType : Option String
  predicate_label : Option String
  relationship : Option RawTriple
  oppositionMetrics : Option OppMetrics
  vault_info : Option VaultRec
  human_readable : String
deriving DecidableEq

/-- Modelled from the spec: `processPositionWithOpposition` of the
missing src/lib/position-utils.ts.  Spec section 4.2: an atom-term gives
an `atom_position` (human_readable is the atom label, falling back to
its raw data and then to `Unknown` - the data field is not part of the
triple node shape used here, so the fallback chain starts at the label);
a triple-term gives a `relationship_position` whose `positionType` is
`oppose` exactly when the position's vault `term_id` equals the triple's
`counter_term_id` (identifier equality only) and `support` otherwise,
whose opposition metrics take the own and counter primary-vault totals
through `oppositionRatioOf`, and whose `human_readable` follows the same
safe-label template as the claims view; a term with neither variant is
skipped via `none`. -/
def processPositionWithOpposition (pos : RawPosition) (viewer : String) :
    Option ProcessedPositionData :=
  match pos.term.atomNode with
  | some a =>
    some
      { type := "atom_position"
        id := pos.id
        atom_id := a.term_id
        triple_id := none
        shares := pos.shares
        positionType := none
        predicate_label := none
        relationship := none
        oppositionMetrics := none
        vault_info := pos.term.vaults.head?
        human_readable := jsOrStr a.label "Unknown" }
  | none =>
    match pos.term.triple with
    | none => none
    | some t =>
      let ownShares := vaultSharesOf pos.term.vaults
      let counterShares :=
        match pos.counter_term with
        | none => 0
        | some ct => vaultSharesOf ct.vaults
      let posTermId := (pos.term.vaults.head?).bind VaultRec.term_id
      some
        { type := "relationship_position"
          id := pos.id
          atom_id := none
          triple_id := t.term_id
          shares := pos.shares
          positionType :=
            if posTermId.isSome ∧ posTermId = t.counter_term_id
            then some "oppose" else some "support"
          predicate_label := (t.predicate).bind RawAtomNode.label
          relationship := some t
          oppositionMetrics :=
            some { ratioOfOpposition := oppositionRatioOf ownShares counterShares }
          vault_info := pos.term.vaults.head?
          human_readable := tripleHumanText t.subject t.predicate t.object }

/-! ## Relevance Ranker (src/operations/get-account-info.ts lines 93-98) -/

/-- The comparator key of the sort at get-account-info.ts lines 94-98:
`BigInt(x.shares || '0')`. -/
def sharesKey (p : ProcessedPositionData) : Nat :=
  parseDecNat (jsOrStr p.shares "0")

/-- The sort of get-account-info.ts lines 94-98.  The ECMAScript
`Array.prototype.sort` with the consistent comparator
`(a, b) => sharesA > sharesB ? -1 : sharesA < sharesB ? 1 : 0`
is specified (ES2019 and later) to produce a stable reordering sorted by
the comparator, i.e. a stable sort by `sharesKey` descending; it is
embedded as the stable `List.insertionSort` under the corresponding
relation. -/
def rankBySharesDesc (l : List ProcessedPositionData) : List ProcessedPositionData :=
  l.insertionSort (fun a b => sharesKey b ≤ sharesKey a)

/-- `processPositionsData` (get-account-info.ts lines 79-99): normalize,
classify (dropping `null`), then rank; the early return on an empty
input coincides with the pipeline on the empty list. -/
def processPositionsData (positions : List RawPosition) (accountAddress : String) :
    List ProcessedPositionData :=
  rankBySharesDesc
    ((filterZeroSharePositions positions).filterMap
      (fun p => processPositionWithOpposition p accountAddress))

/-! ## Response envelope (src/lib/response.ts lines 50-86) -/

/-- An upstream failure as `createErrorResponse` inspects it: a message,
an optional HTTP status of the attached response, and the two rate-limit
header chains collapsed to their first present entry. -/
structure UpstreamErr where
  message : String
  status : Option Nat
  retryAfterHeader : Option String
  remainingHeader : Option String
deriving DecidableEq

/-- The error context argument of `createErrorResponse`: the operation
name, the input arguments rendered opaquely, and the failure phase. -/
structure ErrCtx where
  operation : String
  phase : String
deriving DecidableEq

inductive ContentItem (ρ : Type) where
  | text (s : String)
  | resource (uriStr : String) (payload : ρ)
deriving DecidableEq

/-- The MCP `CallToolResult`, with the JSON resource payload kept
structured (JSON.stringify is injective on it) and a missing `isError`
modelled as `false`. -/
structure CallToolResult (ρ : Type) where
  content : List (ContentItem ρ)
  isError : Bool
deriving DecidableEq

/-- The note appended for the follower-analysis operations inside the
rate-limit branch (response.ts lines 71-73). -/
def followersNote : String :=
  "\n\nNote: This operation analyzes many accounts at once. The system is limited to top 20 accounts to prevent rate limits."

/-- The message assembled by `createErrorResponse` (response.ts lines
59-75): the error's own message, replaced by the rate-limit text when the
attached response carries HTTP status 429. -/
def errorMessageText (e : UpstreamErr) (ctx : ErrCtx) : String :=
  if e.status = some 429 then
    let retryAfter := jsOrStr e.retryAfterHeader "60"
    let remaining := jsOrStr e.remainingHeader "0"
    let base := "API rate limit exceeded. Please wait " ++ retryAfter ++
      " seconds before trying again. (" ++ remaining ++ " requests remaining)"
    if ctx.operation = "get_following" ∨ ctx.operation = "get_followers" then
      base ++ followersNote
    else base
  else e.message

/-- `createErrorResponse` (response.ts lines 50-86): one text content
item `Error: <message>` and `isError: true`; the context is only written
to the console log, never into the returned result. -/
def createErrorResponse (ρ : Type) (e : UpstreamErr) (ctx : ErrCtx) :
    CallToolResult ρ :=
  { content := [ContentItem.text ("Error: " ++ errorMessageText e ctx)]
    isError := true }

/-- Needle occurs as a substring of hay (used to check whether an error
outcome names its operation and phase). -/
def mentionsStr (needle hay : String) : Prop :=
  needle.data <:+: hay.data

instance (needle hay : String) : Decidable (mentionsStr needle hay) :=
  List.decidableInfix needle.data hay.data

/-! ## get_account_info (src/operations/get-account-info.ts lines 125-313) -/

structure AccountArgs where
  address : Option String
  identifier : Option String
deriving DecidableEq

/-- `args.address || args.identifier` (get-account-info.ts line 170). -/
def pickedAddress (args : AccountArgs) : Option String :=
  jsOrOpt args.address args.identifier

/-- Lines 172-175: lowercase the picked address when it starts with the
literal `0x` (the check is case sensitive). -/
def normalizeHexCase (s : String) : String :=
  if jsStartsWith s "0x" then jsToLowerCase s else s

/-- The address string the upstream GraphQL query is issued with
(get-account-info.ts lines 170-184). -/
def queryAddressOf (args : AccountArgs) : Option String :=
  (pickedAddress args).map normalizeHexCase

/-- The account record returned by the GetAccountInfo query. -/
structure RawAccount where
  id : String
  label : Option String
  image : Option String
  atom_id : Option String
  type : Option String
  triples : List RawTriple
  positions : List RawPosition
  atomsCount : Nat
deriving DecidableEq

/-- The `summary` object serialized into the resource payload
(get-account-info.ts lines 240-244): all three counts are the lengths of
the RAW record lists. -/
structure AccountSummaryCounts where
  relationships_count : Nat
  positions_count : Nat
  atoms_count : Nat
deriving DecidableEq

structure TopRelationshipBrief where
  id : Option String
  human_readable : String
deriving DecidableEq

structure TopPositionBrief where
  type : String
  id : Option String
  human_readable : String
  position_type : Option String
  predicate_label : Option String
  opposition_metrics : Option OppMetrics
deriving DecidableEq

/-- The object passed to JSON.stringify for the resource content item
(get-account-info.ts lines 233-264). -/
structure AccountInfoPayload where
  account_id : String
  account_label : Option String
  account_atom_id : Option String
  account_type : Option String
  summary : AccountSummaryCounts
  top_relationships : List TopRelationshipBrief
  top_positions : List TopPositionBrief
deriving DecidableEq

def accountInfoPayload (account : RawAccount) (address : String) :
    AccountInfoPayload :=
  { account_id := account.id
    account_label := account.label
    account_atom_id := account.atom_id
    account_type := account.type
    summary :=
      { relationships_count := account.triples.length
        positions_count := account.positions.length
        atoms_count := account.atomsCount }
    top_relationships :=
      ((processClaimsData account.triples).take 10).map
        (fun c => { id := c.id, human_readable := c.human_readable })
    top_positions :=
      ((processPositionsData account.positions address).take 10).map
        (fun pos =>
          { type := pos.type
            id := jsOrOpt pos.id (jsOrOpt pos.atom_id pos.triple_id)
            human_readable := pos.human_readable
            position_type := pos.positionType
            predicate_label := pos.predicate_label
            opposition_metrics := pos.oppositionMetrics }) }

/-- The position total the text digest interpolates at
get-account-info.ts line 278: the length of the RAW positions list. -/
def digestPositionsCount (account : RawAccount) : Nat :=
  account.positions.length

/-- One numbered line of the positions digest (get-account-info.ts lines
281-292): the `[OPPOSING]` annotation is appended exactly when
`positionType` is `oppose`, and the percentage suffix exactly when
opposition metrics are present with a ratio strictly greater than 0. -/
def formatPositionLine (i : Nat) (pos : ProcessedPositionData) : String :=
  let line := Nat.repr (i + 1) ++ ". " ++ pos.human_readable
  let line :=
    if pos.positionType = some "oppose" then line ++ " [OPPOSING]" else line
  let line :=
    match pos.oppositionMetrics with
    | some m =>
      if 0 < m.ratioOfOpposition then
        line ++ " [" ++ Int.repr (jsRound (m.ratioOfOpposition * 100)) ++ "% opposition]"
      else line
    | none => line
  line

/-- The text digest of get-account-info.ts lines 270-299. -/
def accountDigestText (account : RawAccount) (address : String) : String :=
  "Account: **" ++ jsOrStr account.label address ++ "** (" ++ account.id ++
    ")\n\n**RELATIONSHIPS** (" ++ Nat.repr account.triples.length ++
    " total, showing top 10):\n" ++
    String.intercalate "\n"
      (((processClaimsData account.triples).take 10).mapIdx
        (fun i c => Nat.repr (i + 1) ++ ". " ++ c.human_readable)) ++
    "\n\n**POSITIONS** (" ++ Nat.repr (digestPositionsCount account) ++
    " total, showing top 10):\n" ++
    String.intercalate "\n"
      (((processPositionsData account.positions address).take 10).mapIdx
        formatPositionLine) ++
    "\n\n**ATOMS** (" ++ Nat.repr account.atomsCount ++
    " associated)\n\nUse search_atoms with " ++ jsOrStr account.label address ++
    " for additional relationship discovery."

/-- The success result of get-account-info.ts lines 227-302: a resource
item with the structured payload and a text item with the digest. -/
def accountInfoSuccess (account : RawAccount) (address : String) :
    CallToolResult AccountInfoPayload :=
  { content :=
      [ContentItem.resource "account-info-result" (accountInfoPayload account address),
       ContentItem.text (accountDigestText account address)]
    isError := false }

/-- `getAccountInfoOperation.execute` (get-account-info.ts lines
168-312), with the upstream client passed explicitly: the picked address
is case-normalized, the query is issued with it, a rejected query lands
in the catch block (lines 305-311) as `createErrorResponse` with context
operation `get_account_info` and phase `execution`, an empty account list
yields the `No account found` text, and otherwise the first account is
shaped.  Arguments with neither field are rejected by the zod schema
before `execute` runs. -/
def accountInfoExecute
    (fetch : String → Except UpstreamErr (List RawAccount))
    (args : AccountArgs) : CallToolResult AccountInfoPayload :=
  match queryAddressOf args with
  | none =>
    { content := [ContentItem.text "Either address or identifier must be provided"]
      isError := true }
  | some address =>
    match fetch address with
    | Except.error e =>
      createErrorResponse AccountInfoPayload e
        { operation := "get_account_info", phase := "execution" }
    | Except.ok accounts =>
      match accounts with
      | [] =>
        { content := [ContentItem.text ("No account found for address " ++ address)]
          isError := false }
      | account :: _ => accountInfoSuccess account address

/-! ## get_followers (src/operations/get-followers.ts lines 245-473) -/

/-- The record set returned by the followers GraphQL query. -/
structure FollowersQueryResp where
  positions : List RawPosition
deriving DecidableEq

/-- One interest entry built from a relationship position of a follower
(get-followers.ts lines 342-358). -/
structure InterestRec where
  relationship : Option RawTriple
  shares : Option String
  position_type : Option String
  predicate_label : Option String
  opposition_metrics : Option OppMetrics
  vault_info : Option VaultRec
  human_readable : String
deriving DecidableEq

/-- Lines 339-359: filter zero-share positions, classify each with the
follower as viewer, and keep only relationship positions. -/
def followerInterests (followerId : String) (positions : List RawPosition) :
    List InterestRec :=
  (filterZeroSharePositions positions).filterMap
    (fun pos =>
      match processPositionWithOpposition pos followerId with
      | none => none
      | some pp =>
        if pp.type = "relationship_position" then
          some
            { relationship := pp.relationship
              shares := pp.shares
              position_type := pp.positionType
              predicate_label := pp.predicate_label
              opposition_metrics := pp.oppositionMetrics
              vault_info := pp.vault_info
              human_readable := pp.human_readable }
        else none)

/-- One item of the `relationship_summary` string (get-followers.ts lines
372-382): `[OPPOSING]` is appended exactly when the interest's position
type is `oppose`, and the percentage suffix exactly when opposition
metrics are present with a ratio strictly greater than 0.25. -/
def followerSummaryItem (i : InterestRec) : String :=
  let s := i.human_readable
  let s := if i.position_type = some "oppose" then s ++ " [OPPOSING]" else s
  let s :=
    match i.opposition_metrics with
    | some m =>
      if (25 : Rat) / 100 < m.ratioOfOpposition then
        s ++ " [" ++ Int.repr (jsRound (m.ratioOfOpposition * 100)) ++ "% opposition]"
      else s
    | none => s
  s

/-- The enriched record built for one follower (get-followers.ts lines
361-383). -/
structure EnrichedFollower where
  follower_id : String
  follower_label : Option String
  follower_image : Option String
  follows_with_shares : Option String
  follower_vault_info : Option VaultRec
  interests : List InterestRec
  interests_count : Nat
  opposition_count : Nat
  relationship_summary : String
deriving DecidableEq

/-- The pure part of one fan-out branch, applied to the secondary query
result of that follower (get-followers.ts lines 306-383). -/
def buildEnrichedFollower (fp : RawPosition) (resp : FollowersQueryResp) :
    EnrichedFollower :=
  let interests := followerInterests fp.account.id resp.positions
  { follower_id := fp.account.id
    follower_label := fp.account.label
    follower_image := fp.account.image
    follows_with_shares := fp.shares
    follower_vault_info := fp.term.vaults.head?
    interests := interests.take 10
    interests_count := interests.length
    opposition_count :=
      (interests.filter (fun i => i.position_type == some "oppose")).length
    relationship_summary :=
      String.intercalate "; " ((interests.take 5).map followerSummaryItem) }

/-- The value semantics of `Promise.all` over a list of already-started
branches (get-followers.ts lines 305-385): the list of all branch values
when every branch fulfils, and a rejection as soon as any branch rejects
(the surviving branch values are discarded).  Which rejection reason
surfaces is timing dependent in JS; the first in array order is used
here, which does not affect whether the batch rejects. -/
def promiseAll {β : Type} : List (Except UpstreamErr β) → Except UpstreamErr (List β)
  | [] => Except.ok []
  | x :: xs =>
    match x with
    | Except.error e => Except.error e
    | Except.ok b =>
      match promiseAll xs with
      | Except.error e => Except.error e
      | Except.ok bs => Except.ok (b :: bs)

/-- The fan-out of get-followers.ts lines 305-385: one secondary lookup
per discovered follower, each branch awaiting its lookup and then
shaping the result; there is NO per-branch catch in the source, so a
branch is the lookup's `Except` mapped through the pure shaping. -/
def enrichAllFollowers
    (lookup : String → Except UpstreamErr FollowersQueryResp)
    (positions : List RawPosition) : Except UpstreamErr (List EnrichedFollower) :=
  promiseAll
    (positions.map (fun fp => (lookup fp.account.id).map (buildEnrichedFollower fp)))

/-- The payload stringified into the resource item (get-followers.ts
lines 412-426), reduced to the fields the claims mention. -/
structure FollowersPayload where
  target_account : String
  total_followers : Nat
  total_interests : Nat
  follower_ids : List String
deriving DecidableEq

/-- The success response of get-followers.ts lines 387-459. -/
def followersSuccess (address : String) (enriched : List EnrichedFollower) :
    CallToolResult FollowersPayload :=
  { content :=
      [ContentItem.resource "get-followers-result"
        { target_account := address
          total_followers := enriched.length
          total_interests :=
            (enriched.map EnrichedFollower.interests_count).sum
          follower_ids := ((enriched.take 5).map EnrichedFollower.follower_id) },
       ContentItem.text
         ("Followers Analysis for " ++ address ++ ": " ++
           Nat.repr enriched.length ++ " accounts")]
    isError := false }

/-- `getFollowersOperation.execute` (get-followers.ts lines 264-472) with
the upstream client passed explicitly: the primary followers query, then
the `Promise.all` fan-out; any rejection - of the primary query OR of any
single secondary branch - reaches the one catch block at lines 466-471
and becomes `createErrorResponse` with operation `get_followers`, phase
`execution`. -/
def followersExecute
    (fetchFollowers : Except UpstreamErr FollowersQueryResp)
    (lookup : String → Except UpstreamErr FollowersQueryResp)
    (accountId : String) : CallToolResult FollowersPayload :=
  match fetchFollowers with
  | Except.error e =>
    createErrorResponse FollowersPayload e
      { operation := "get_followers", phase := "execution" }
  | Except.ok fr =>
    match enrichAllFollowers lookup fr.positions with
    | Except.error e =>
      createErrorResponse FollowersPayload e
        { operation := "get_followers", phase := "execution" }
    | Except.ok enriched => followersSuccess accountId enriched

/-! ## removeEmptyFields (src/lib/response.ts lines 4-48)

JS values as the function dispatches on them: undefined, null, booleans,
numbers, strings, arrays and plain objects; arrays and objects carry
their children through mutually inductive spines. -/

mutual

inductive JValue where
  | undef : JValue
  | jnull : JValue
  | jbool : Bool → JValue
  | jnum : Rat → JValue
  | jstr : String → JValue
  | jarr : JArr → JValue
  | jobj : JObj → JValue

inductive JArr where
  | nil : JArr
  | cons : JValue → JArr → JArr

inductive JObj where
  | nil : JObj
  | cons : String → JValue → JObj → JObj

end

/-- The keep condition shared by the array filter (response.ts lines
14-20) and the object filter (lines 32-37): drop undefined, null, the
empty string and the empty array; every other value - including any
object, since empty objects have already become undefined - is kept. -/
def keepVal : JValue → Bool
  | JValue.undef => false
  | JValue.jnull => false
  | JValue.jbool _ => true
  | JValue.jnum _ => true
  | JValue.jstr s => if s = "" then false else true
  | JValue.jarr JArr.nil => false
  | JValue.jarr (JArr.cons _ _) => true
  | JValue.jobj _ => true

mutual

/-- `removeEmptyFields` (response.ts lines 4-48): null and undefined are
returned as-is; an array maps the function over its items and filters;
an object recurses into its values, keeps the non-empty ones, and
becomes undefined when no key survives; primitives are returned as-is. -/
def removeEmptyFields : JValue → JValue
  | JValue.undef => JValue.undef
  | JValue.jnull => JValue.jnull
  | JValue.jbool b => JValue.jbool b
  | JValue.jnum q => JValue.jnum q
  | JValue.jstr s => JValue.jstr s
  | JValue.jarr xs => JValue.jarr (cleanArr xs)
  | JValue.jobj fs =>
    match cleanObj fs with
    | JObj.nil => JValue.undef
    | JObj.cons k v rest => JValue.jobj (JObj.cons k v rest)

def cleanArr : JArr → JArr
  | JArr.nil => JArr.nil
  | JArr.cons v rest =>
    let w := removeEmptyFields v
    if keepVal w then JArr.cons w (cleanArr rest) else cleanArr rest

def cleanObj : JObj → JObj
  | JObj.nil => JObj.nil
  | JObj.cons k v rest =>
    let w := removeEmptyFields v
    if keepVal w then JObj.cons k w (cleanObj rest) else cleanObj rest

end

/-- A value is itself one of the empty shapes the claim forbids:
null, undefined, the empty string, the empty array, the empty object. -/
def isEmptyVal : JValue → Bool
  | JValue.undef => true
  | JValue.jnull => true
  | JValue.jstr s => if s = "" then true else false
  | JValue.jarr JArr.nil => true
  | JValue.jobj JObj.nil => true
  | _ => false

mutual

/-- No strict descendant of the value is one of the empty shapes. -/
def innerClean : JValue → Bool
  | JValue.jarr xs => innerCleanArr xs
  | JValue.jobj fs => innerCleanObj fs
  | _ => true

def innerCleanArr : JArr → Bool
  | JArr.nil => true
  | JArr.cons v rest =>
    (!isEmptyVal v) && innerClean v && innerCleanArr rest

def innerCleanObj : JObj → Bool
  | JObj.nil => true
  | JObj.cons _ v rest =>
    (!isEmptyVal v) && innerClean v && innerCleanObj rest

end

/-! ## Spec-side formulas used for refinement comparison -/

/-- The triple rendering exactly as claim C7 words it: the labels appear
verbatim and the fallbacks fire ONLY when a label is missing. -/
def claimTripleTextMissingOnly (s p o : Option RawAtomNode) : String :=
  ((s.bind RawAtomNode.label).getD "Unknown") ++ " " ++
    ((p.bind RawAtomNode.label).getD "relates to") ++ " " ++
    ((o.bind RawAtomNode.label).getD "Unknown")

/-- The amended C7 formula: the fallbacks fire when a label is missing OR
present but empty (the JS `||` fallback). -/
def claimTripleTextMissingOrEmpty (s p o : Option RawAtomNode) : String :=
  (match s.bind RawAtomNode.label with
   | none => "Unknown"
   | some x => if x = "" then "Unknown" else x) ++ " " ++
  (match p.bind RawAtomNode.label with
   | none => "relates to"
   | some x => if x = "" then "relates to" else x) ++ " " ++
  (match o.bind RawAtomNode.label with
   | none => "Unknown"
   | some x => if x = "" then "Unknown" else x)

/-! ## Digest annotation decomposition (claim C4) -/

/-- The `[OPPOSING]` annotation as appended by both digest sites. -/
def opposingMarkOf (pt : Option String) : String :=
  if pt = some "oppose" then " [OPPOSING]" else ""

/-- The opposition-percentage suffix as appended by the get_account_info
digest (get-account-info.ts lines 286-290): present exactly when metrics
exist with ratio strictly greater than 0. -/
def pctMarkGtZero (m : Option OppMetrics) : String :=
  match m with
  | some mm =>
    if 0 < mm.ratioOfOpposition then
      " [" ++ Int.repr (jsRound (mm.ratioOfOpposition * 100)) ++ "% opposition]"
    else ""
  | none => ""

/-- The opposition-percentage suffix as appended by the get_followers
summary (get-followers.ts lines 377-379): present exactly when metrics
exist with ratio strictly greater than 0.25. -/
def pctMarkGtQuarter (m : Option OppMetrics) : String :=
  match m with
  | some mm =>
    if (25 : Rat) / 100 < mm.ratioOfOpposition then
      " [" ++ Int.repr (jsRound (mm.ratioOfOpposition * 100)) ++ "% opposition]"
    else ""
  | none => ""

/-! ## Concrete sample values used by counterexamples and witnesses -/

def aliceNode : RawAtomNode :=
  { term_id := some "s1", label := some "Alice", value := none }

def knowsNode : RawAtomNode :=
  { term_id := some "p1", label := some "knows", value := none }

def bobNode : RawAtomNode :=
  { term_id := some "o1", label := some "Bob", value := none }

/-- A subject atom whose label is present but empty (falsy in JS). -/
def emptyLabelNode : RawAtomNode :=
  { term_id := some "s2", label := some "", value := none }

def tAlice : RawTriple :=
  { term_id := some "t1", counter_term_id := some "ct1",
    subject := some aliceNode, predicate := some knowsNode,
    object := some bobNode }

def tEmptySubject : RawTriple :=
  { term_id := some "t2", counter_term_id := some "ct2",
    subject := some emptyLabelNode, predicate := some knowsNode,
    object := some bobNode }

def sampleAtomTerm : TermRec :=
  { atomNode := some { term_id := some "a1", label := some "X", value := none }
    triple := none
    vaults := [] }

def sampleTripleTerm : TermRec :=
  { atomNode := none, triple := some tAlice, vaults := [] }

def posWithShares (sh : Option String) : RawPosition :=
  { id := some "p0", shares := sh
    account := { id := "0xacc", label := none, image := none }
    term := sampleAtomTerm
    counter_term := none }

def zeroSharePos : RawPosition := posWithShares (some "0")

/-- An account whose only raw position has zero shares, so its ranked
list is empty while the raw count is 1. -/
def accountOneZeroPos : RawAccount :=
  { id := "0xacc", label := some "Acc", image := none, atom_id := none
    type := some "account", triples := [], positions := [zeroSharePos]
    atomsCount := 0 }

/-- A follower position on the relationship triple, for the fan-out. -/
def followerPos (accId : String) : RawPosition :=
  { id := some ("pos-" ++ accId), shares := some "10"
    account := { id := accId, label := some accId, image := none }
    term := sampleTripleTerm
    counter_term := none }

def threeFollowers : FollowersQueryResp :=
  ⟨[followerPos "f1", followerPos "f2", followerPos "f3"]⟩

def secondaryFailure : UpstreamErr :=
  { message := "secondary lookup failed", status := none
    retryAfterHeader := none, remainingHeader := none }

/-- A secondary-lookup client that fails on exactly one of the three
discovered followers and succeeds (with no positions) on the others. -/
def lookupOneFails (accId : String) : Except UpstreamErr FollowersQueryResp :=
  if accId = "f2" then Except.error secondaryFailure else Except.ok ⟨[]⟩

def plainErr : UpstreamErr :=
  { message := "boom", status := none
    retryAfterHeader := none, remainingHeader := none }

/-- A processed support position whose opposition ratio is 1/10: below
the 0.25 materiality threshold of the claim, yet strictly positive. -/
def lowRatioPos : ProcessedPositionData :=
  { type := "relationship_position", id := some "p9", atom_id := none
    triple_id := some "t1", shares := some "5"
    positionType := some "support", predicate_label := some "knows"
    relationship := some tAlice
    oppositionMetrics := some { ratioOfOpposition := (1 : Rat) / 10 }
    vault_info := none, human_readable := "X" }

/-! ## Helper lemmas -/

theorem str_append_empty (s : String) : s ++ "" = s := by
  cases s with
  | mk l =>
    show String.mk (l ++ []) = String.mk l
    rw [List.append_nil]

theorem pct_suffix_ne_empty (x : String) :
    (" [" ++ x ++ "% opposition]") ≠ "" := by
  intro h
  have h2 := congrArg String.data h
  simp [String.data_append] at h2

/-! ## Claim C10: hex-address case normalization -/

/-- C10: in get_account_info, whenever the picked address or identifier
begins with the literal `0x`, the upstream query is issued with its fully
lowercased form; hence two invocations whose `0x`-prefixed addresses
differ only in letter case issue the identical query address. -/
theorem c10_hex_address_lowercased :
    (∀ args s, pickedAddress args = some s → jsStartsWith s "0x" = true →
      queryAddressOf args = some (jsToLowerCase s))
    ∧ (∀ a₁ a₂ s₁ s₂, pickedAddress a₁ = some s₁ → pickedAddress a₂ = some s₂ →
        jsStartsWith s₁ "0x" = true → jsStartsWith s₂ "0x" = true →
        jsToLowerCase s₁ = jsToLowerCase s₂ →
        queryAddressOf a₁ = queryAddressOf a₂) := by
  constructor
  · intro args s hp hs
    simp [queryAddressOf, hp, normalizeHexCase, hs]
  · intro a₁ a₂ s₁ s₂ hp₁ hp₂ hs₁ hs₂ hlow
    simp [queryAddressOf, hp₁, hp₂, normalizeHexCase, hs₁, hs₂, hlow]

/-- C10 witness: the concrete addresses `0xAbCd` (via `address`) and
`0xaBcD` (via `identifier`) both query as `0xabcd`. -/
theorem c10_witness :
    queryAddressOf ⟨some "0xAbCd", none⟩ = some "0xabcd"
    ∧ queryAddressOf ⟨some "0xAbCd", none⟩ = queryAddressOf ⟨none, some "0xaBcD"⟩ := by
  constructor
  · have h := c10_hex_address_lowercased.1 ⟨some "0xAbCd", none⟩ "0xAbCd"
      (by decide) (by decide)
    rw [h]; decide
  · exact c10_hex_address_lowercased.2 ⟨some "0xAbCd", none⟩ ⟨none, some "0xaBcD"⟩
      "0xAbCd" "0xaBcD" (by decide) (by decide) (by decide) (by decide) (by decide)

/-! ## Claim C5: the Position Normalizer -/

/-- C5: `filterZeroSharePositions` returns exactly the subsequence (in
particular: order preserved, nothing duplicated) of the entries whose
`shares` parse to an arbitrary-precision integer strictly greater than
zero, a missing `shares` counting as zero via `positionSharesNat`. -/
theorem c5_normalizer_exact_positive_subsequence (positions : List RawPosition) :
    List.Sublist (filterZeroSharePositions positions) positions
    ∧ ∀ p, p ∈ filterZeroSharePositions positions ↔
        p ∈ positions ∧ 0 < positionSharesNat p := by
  refine ⟨List.filter_sublist _, fun p => ?_⟩
  simp [filterZeroSharePositions, List.mem_filter]

/-! ## Claim C6: the opposition ratio -/

/-- C6: the opposition ratio is `counter / (own + counter)` as an exact
ratio whenever some stake exists, always lies in [0, 1], and is exactly 0
when both vault totals are zero. -/
theorem c6_opposition_ratio_in_unit_interval (own counter : Nat) :
    0 ≤ oppositionRatioOf own counter
    ∧ oppositionRatioOf own counter ≤ 1
    ∧ oppositionRatioOf 0 0 = 0
    ∧ (own + counter ≠ 0 →
        oppositionRatioOf own counter =
          (counter : Rat) / ((own : Rat) + (counter : Rat))) := by
  unfold oppositionRatioOf
  refine ⟨?_, ?_, by norm_num, fun h => by rw [if_neg h]⟩
  · split
    · exact le_refl 0
    · positivity
  · split
    · exact zero_le_one
    · rename_i h
      have hpos : 0 < (own : Rat) + (counter : Rat) := by
        have h0 : 0 < own + counter := Nat.pos_of_ne_zero h
        exact_mod_cast h0
      rw [div_le_one hpos]
      exact le_add_of_nonneg_left (by positivity)

/-- C6 witness: a position with own total 1 and counter total 2 has
ratio exactly 2/3. -/
theorem c6_witness : oppositionRatioOf 1 2 = (2 : Rat) / 3 := by
  have h := (c6_opposition_ratio_in_unit_interval 1 2).2.2.2 (by decide)
  rw [h]; norm_num

/-! ## Claim C1: the Relevance Ranker -/

theorem filter_sharesKey_orderedInsert (k : Nat) (a : ProcessedPositionData)
    (l : List ProcessedPositionData) :
    (l.orderedInsert (fun x y => sharesKey y ≤ sharesKey x) a).filter
        (fun x => sharesKey x == k) =
      (if sharesKey a = k then
        a :: l.filter (fun x => sharesKey x == k)
      else l.filter (fun x => sharesKey x == k)) := by
  induction l with
  | nil =>
    by_cases h : sharesKey a = k <;>
      simp [List.orderedInsert, List.filter_cons, beq_iff_eq, h]
  | cons b t ih =>
    by_cases hab : sharesKey b ≤ sharesKey a
    · rw [List.orderedInsert, if_pos hab]
      by_cases h : sharesKey a = k <;> simp [List.filter_cons, h]
    · rw [List.orderedInsert, if_neg hab]
      have hlt : sharesKey a < sharesKey b := not_le.mp hab
      by_cases h : sharesKey a = k
      · have hbk : ¬ sharesKey b = k := by omega
        simp [List.filter_cons, ih, h, hbk]
      · simp [List.filter_cons, ih, h]

theorem filter_sharesKey_rank (k : Nat) (l : List ProcessedPositionData) :
    (rankBySharesDesc l).filter (fun x => sharesKey x == k) =
      l.filter (fun x => sharesKey x == k) := by
  induction l with
  | nil => rfl
  | cons b t ih =>
    show ((t.insertionSort (fun x y => sharesKey y ≤ sharesKey x)).orderedInsert
        (fun x y => sharesKey y ≤ sharesKey x) b).filter (fun x => sharesKey x == k) = _
    rw [filter_sharesKey_orderedInsert]
    by_cases h : sharesKey b = k
    · rw [if_pos h]
      rw [show (t.insertionSort fun x y => sharesKey y ≤ sharesKey x) =
            rankBySharesDesc t from rfl, ih]
      simp [List.filter_cons, h]
    · rw [if_neg h]
      rw [show (t.insertionSort fun x y => sharesKey y ≤ sharesKey x) =
            rankBySharesDesc t from rfl, ih]
      simp [List.filter_cons, h]

/-- C1: the sort inside `processPositionsData` returns a permutation of
its input (nothing dropped, nothing duplicated), every pair of output
indices i < j satisfies shares[i] >= shares[j] under exact
arbitrary-precision comparison (`Pairwise` of the descending key
relation), and the sort is stable: for every key value, the sublist of
entries carrying that key is unchanged. -/
theorem c1_ranker_perm_sorted_stable (l : List ProcessedPositionData) :
    (rankBySharesDesc l).Perm l
    ∧ (rankBySharesDesc l).Pairwise (fun a b => sharesKey b ≤ sharesKey a)
    ∧ ∀ k, (rankBySharesDesc l).filter (fun x => sharesKey x == k) =
        l.filter (fun x => sharesKey x == k) := by
  refine ⟨List.perm_insertionSort _ _, ?_, fun k => filter_sharesKey_rank k l⟩
  haveI h1 : IsTotal ProcessedPositionData (fun a b => sharesKey b ≤ sharesKey a) :=
    ⟨fun a b => Nat.le_total (sharesKey b) (sharesKey a)⟩
  haveI h2 : IsTrans ProcessedPositionData (fun a b => sharesKey b ≤ sharesKey a) :=
    ⟨fun _ _ _ hab hbc => le_trans hbc hab⟩
  exact List.sorted_insertionSort _ l

/-! ## Claim C7: the human-readable triple rendering -/

/-- C7 counterexample: on a triple whose subject label is present but
empty, the code renders `Unknown knows Bob`, while the claimed formula
(substitution only for a MISSING label) yields ` knows Bob`, so the claim
as stated fails at this input. -/
theorem c7_counterexample :
    (processClaim tEmptySubject).human_readable = "Unknown knows Bob"
    ∧ claimTripleTextMissingOnly tEmptySubject.subject tEmptySubject.predicate
        tEmptySubject.object = " knows Bob"
    ∧ (processClaim tEmptySubject).human_readable ≠
        claimTripleTextMissingOnly tEmptySubject.subject tEmptySubject.predicate
          tEmptySubject.object := by
  refine ⟨by decide, by decide, by decide⟩

/-- C7 amended: the rendering is the claimed template with `Unknown`
substituted for a missing OR empty subject/object label and `relates to`
for a missing OR empty predicate label (JS `||` is also triggered by the
empty string); in particular Alice/knows/Bob renders exactly as
`Alice knows Bob`. -/
theorem c7_amended_safe_label_rendering :
    (∀ t : RawTriple, (processClaim t).human_readable =
      claimTripleTextMissingOrEmpty t.subject t.predicate t.object)
    ∧ (processClaim tAlice).human_readable = "Alice knows Bob" := by
  constructor
  · intro t
    show tripleHumanText t.subject t.predicate t.object = _
    cases hs : t.subject.bind RawAtomNode.label <;>
      cases hp : t.predicate.bind RawAtomNode.label <;>
        cases ho : t.object.bind RawAtomNode.label <;>
          simp only [tripleHumanText, claimTripleTextMissingOrEmpty, jsOrStr,
            hs, hp, ho]
  · decide

/-! ## Claim C4: digest annotations -/

/-- C4 counterexample: a processed position with opposition ratio 1/10 -
i.e. NOT above the claimed materiality threshold 0.25 - still gets a
percentage suffix in the get_account_info digest, because that site
appends the suffix for every strictly positive ratio. -/
theorem c4_counterexample :
    lowRatioPos.oppositionMetrics =
      some { ratioOfOpposition := (1 : Rat) / 10 }
    ∧ (1 : Rat) / 10 ≤ 25 / 100
    ∧ pctMarkGtZero lowRatioPos.oppositionMetrics ≠ ""
    ∧ formatPositionLine 0 lowRatioPos = "1. X [10% opposition]" := by
  refine ⟨rfl, by norm_num, ?_, ?_⟩
  · show pctMarkGtZero (some { ratioOfOpposition := (1 : Rat) / 10 }) ≠ ""
    simp only [pctMarkGtZero]
    rw [if_pos (by norm_num : (0 : Rat) < 1 / 10)]
    exact pct_suffix_ne_empty _
  · show formatPositionLine 0 lowRatioPos = _
    have h10 : jsRound ((1 : Rat) / 10 * 100) = 10 := by
      unfold jsRound; norm_num
    simp only [formatPositionLine, lowRatioPos]
    rw [if_neg (by decide : ¬ (some "support" : Option String) = some "oppose")]
    rw [if_pos (by norm_num : (0 : Rat) < 1 / 10)]
    rw [h10]
    decide

theorem opposing_bracket_fold (x : String) :
    (" [OPPOSING]" ++ (" [" ++ x)) = " [OPPOSING] [" ++ x := by
  have h : (" [OPPOSING]" ++ " [" : String) = " [OPPOSING] [" := by decide
  rw [← String.append_assoc, h]

/-- C4 amended: in both digests the `[OPPOSING]` annotation appears iff
`positionType` is `oppose`; the opposition-percentage suffix appears iff
the ratio exceeds 0.25 in the get_followers summary, but in the
get_account_info digest it appears iff the ratio exceeds 0 (the 0.25
materiality threshold is applied only at the get_followers site). -/
theorem c4_amended_annotation_thresholds (i : Nat) (pos : ProcessedPositionData)
    (it : InterestRec) :
    formatPositionLine i pos =
      (Nat.repr (i + 1) ++ ". " ++ pos.human_readable) ++
        opposingMarkOf pos.positionType ++ pctMarkGtZero pos.oppositionMetrics
    ∧ (opposingMarkOf pos.positionType ≠ "" ↔ pos.positionType = some "oppose")
    ∧ followerSummaryItem it =
        it.human_readable ++ opposingMarkOf it.position_type ++
          pctMarkGtQuarter it.opposition_metrics
    ∧ (pctMarkGtQuarter it.opposition_metrics ≠ "" ↔
        ∃ m, it.opposition_metrics = some m ∧ (25 : Rat) / 100 < m.ratioOfOpposition)
    ∧ (pctMarkGtZero pos.oppositionMetrics ≠ "" ↔
        ∃ m, pos.oppositionMetrics = some m ∧ 0 < m.ratioOfOpposition) := by
  refine ⟨?_, ?_, ?_, ?_, ?_⟩
  · cases hm : pos.oppositionMetrics with
    | none =>
      by_cases h1 : pos.positionType = some "oppose" <;>
        simp [formatPositionLine, opposingMarkOf, pctMarkGtZero, hm, h1,
          str_append_empty, String.append_assoc]
    | some m =>
      by_cases h1 : pos.positionType = some "oppose" <;>
        by_cases h2 : (0 : Rat) < m.ratioOfOpposition <;>
          simp [formatPositionLine, opposingMarkOf, pctMarkGtZero, hm, h1, h2,
            str_append_empty, String.append_assoc, opposing_bracket_fold]
  · by_cases h1 : pos.positionType = some "oppose"
    · unfold opposingMarkOf
      rw [if_pos h1]
      simp [h1]
    · unfold opposingMarkOf
      rw [if_neg h1]
      simp [h1]
  · cases hm : it.opposition_metrics with
    | none =>
      by_cases h1 : it.position_type = some "oppose" <;>
        simp [followerSummaryItem, opposingMarkOf, pctMarkGtQuarter, hm, h1,
          str_append_empty, String.append_assoc]
    | some m =>
      by_cases h1 : it.position_type = some "oppose" <;>
        by_cases h2 : (25 : Rat) / 100 < m.ratioOfOpposition <;>
          simp [followerSummaryItem, opposingMarkOf, pctMarkGtQuarter, hm, h1, h2,
            str_append_empty, String.append_assoc, opposing_bracket_fold]
  · cases hm : it.opposition_metrics with
    | none => simp [pctMarkGtQuarter]
    | some m =>
      by_cases h2 : (25 : Rat) / 100 < m.ratioOfOpposition
      · simp [pctMarkGtQuarter, h2, pct_suffix_ne_empty]
      · simp [pctMarkGtQuarter, h2]
  · cases hm : pos.oppositionMetrics with
    | none => simp [pctMarkGtZero]
    | some m =>
      by_cases h2 : (0 : Rat) < m.ratioOfOpposition
      · simp [pctMarkGtZero, h2, pct_suffix_ne_empty]
      · simp [pctMarkGtZero, h2]

/-! ## Claim C3: the two views of the position total -/

/-- C3 counterexample: an account with a single zero-share raw position.
Both views report a total of 1 - the RAW record count - while the full
ranked (normalized and classified) list is empty, so the claim that the
reported total equals the ranked-list length fails. -/
theorem c3_counterexample :
    (accountInfoPayload accountOneZeroPos "0xacc").summary.positions_count = 1
    ∧ digestPositionsCount accountOneZeroPos = 1
    ∧ (processPositionsData accountOneZeroPos.positions "0xacc").length = 0 := by
  refine ⟨rfl, rfl, rfl⟩

/-- C3 amended: the structured payload and the text digest of one
get_account_info invocation always report the same aggregate position
total, and that total is the count of RAW upstream records - which can
exceed the length of the ranked (normalized and classified) list. -/
theorem c3_amended_totals_agree_on_raw_count (account : RawAccount)
    (address : String) :
    (accountInfoPayload account address).summary.positions_count =
      digestPositionsCount account
    ∧ digestPositionsCount account = account.positions.length :=
  ⟨rfl, rfl⟩

/-! ## Claim C2: failure semantics of the follower fan-out -/

theorem promiseAll_error_of_mem {β : Type} (l : List (Except UpstreamErr β))
    (h : ∃ x ∈ l, ∃ e, x = Except.error e) :
    ∃ e', promiseAll l = Except.error e' := by
  induction l with
  | nil =>
    obtain ⟨x, hx, _⟩ := h
    cases hx
  | cons y ys ih =>
    obtain ⟨x, hx, e, he⟩ := h
    rcases List.mem_cons.mp hx with h1 | h2
    · subst h1
      rw [he]
      exact ⟨e, rfl⟩
    · cases hy : y with
      | error e0 => exact ⟨e0, by simp [promiseAll]⟩
      | ok b =>
        obtain ⟨e', he'⟩ := ih ⟨x, h2, e, he⟩
        exact ⟨e', by simp [promiseAll, he']⟩

/-- C2 counterexample: three discovered followers, one secondary lookup
fails; the operation returns a batch-level error result (`isError` with a
single error text), NOT a response containing entries for the two
surviving branches - there is no per-branch catch, so `Promise.all`
rejects and the outer catch produces `createErrorResponse`. -/
theorem c2_counterexample :
    (followersExecute (Except.ok threeFollowers) lookupOneFails "0xtarget").isError
      = true
    ∧ (followersExecute (Except.ok threeFollowers) lookupOneFails "0xtarget").content
      = [ContentItem.text "Error: secondary lookup failed"] := by
  refine ⟨by decide, by decide⟩

/-- C2 amended: in the follower-enrichment fan-out, a failure of ANY
single secondary lookup makes the whole get_followers invocation return
one operation-level error result: the branch does not degrade to an empty
interest set, and no partial response with the other branches is
produced. -/
theorem c2_amended_single_branch_failure_aborts_batch
    (fr : FollowersQueryResp)
    (lookup : String → Except UpstreamErr FollowersQueryResp)
    (accountId : String)
    (h : ∃ fp ∈ fr.positions, ∃ e, lookup fp.account.id = Except.error e) :
    (followersExecute (Except.ok fr) lookup accountId).isError = true := by
  obtain ⟨fp, hmem, e, he⟩ := h
  have hx : ∃ x ∈ fr.positions.map
      (fun q => (lookup q.account.id).map (buildEnrichedFollower q)),
      ∃ e0, x = Except.error e0 := by
    refine ⟨(lookup fp.account.id).map (buildEnrichedFollower fp),
      List.mem_map_of_mem _ hmem, e, ?_⟩
    rw [he]
    rfl
  obtain ⟨e', he'⟩ := promiseAll_error_of_mem _ hx
  simp only [followersExecute]
  rw [show enrichAllFollowers lookup fr.positions = Except.error e' from he']
  rfl

/-- C2 witness for the amended statement, at the concrete three-follower
input with the failing middle branch. -/
theorem c2_amended_witness :
    (followersExecute (Except.ok threeFollowers) lookupOneFails "0xother").isError
      = true :=
  c2_amended_single_branch_failure_aborts_batch threeFollowers lookupOneFails
    "0xother" ⟨followerPos "f2", by decide, secondaryFailure, rfl⟩

/-! ## Claim C8: upstream fetch failure handling -/

/-- C8 counterexample: a plain upstream failure with message `boom` in
get_account_info yields the single error outcome `Error: boom`, which
names NEITHER the failing operation (`get_account_info`) NOR the failure
phase (`execution`) - the context is only logged, never put into the
returned result. -/
theorem c8_counterexample :
    (accountInfoExecute (fun _ => Except.error plainErr)
        ⟨some "0xab", none⟩).isError = true
    ∧ (accountInfoExecute (fun _ => Except.error plainErr)
        ⟨some "0xab", none⟩).content = [ContentItem.text "Error: boom"]
    ∧ ¬ mentionsStr "get_account_info" "Error: boom"
    ∧ ¬ mentionsStr "execution" "Error: boom" := by
  refine ⟨by decide, by decide, by decide, by decide⟩

/-- C8 amended: whenever the upstream fetch fails, the operation returns
(never throws) exactly one error outcome with `isError` set, whose text
is `Error:` followed by the message `createErrorResponse` derives from
the error; the operation name and phase are passed to the error handler
as logging context only and are not embedded in the outcome, and the
fetch is not retried (the embedded execute consults the fetch outcome
once). -/
theorem c8_amended_failure_single_error_outcome
    (e : UpstreamErr) (args : AccountArgs) (address : String)
    (h : queryAddressOf args = some address) :
    (accountInfoExecute (fun _ => Except.error e) args).isError = true
    ∧ (accountInfoExecute (fun _ => Except.error e) args).content =
        [ContentItem.text ("Error: " ++ errorMessageText e
          { operation := "get_account_info", phase := "execution" })] := by
  unfold accountInfoExecute
  rw [h]
  exact ⟨rfl, rfl⟩

/-- C8 witness: the amended statement at a concrete identifier and the
concrete `boom` failure. -/
theorem c8_amended_witness :
    (accountInfoExecute (fun _ => Except.error plainErr)
        ⟨none, some "acct.eth"⟩).isError = true
    ∧ (accountInfoExecute (fun _ => Except.error plainErr)
        ⟨none, some "acct.eth"⟩).content =
        [ContentItem.text ("Error: " ++ errorMessageText plainErr
          { operation := "get_account_info", phase := "execution" })] :=
  c8_amended_failure_single_error_outcome plainErr ⟨none, some "acct.eth"⟩
    "acct.eth" (by decide)

/-! ## Claim C9: removeEmptyFields -/

theorem rem_ne_emptyObj : ∀ v : JValue, removeEmptyFields v ≠ JValue.jobj JObj.nil := by
  intro v
  cases v with
  | jobj fs =>
    simp only [removeEmptyFields]
    cases h : cleanObj fs with
    | nil => simp
    | cons k w rest => simp
  | undef => simp [removeEmptyFields]
  | jnull => simp [removeEmptyFields]
  | jbool b => simp [removeEmptyFields]
  | jnum q => simp [removeEmptyFields]
  | jstr s => simp [removeEmptyFields]
  | jarr xs => simp [removeEmptyFields]

theorem keep_isEmptyVal_false {w : JValue} (hk : keepVal w = true)
    (hobj : w ≠ JValue.jobj JObj.nil) : isEmptyVal w = false := by
  cases w with
  | undef => simp [keepVal] at hk
  | jnull => simp [keepVal] at hk
  | jbool b => rfl
  | jnum q => rfl
  | jstr s =>
    by_cases hs : s = ""
    · simp [keepVal, hs] at hk
    · simp [isEmptyVal, hs]
  | jarr a =>
    cases a with
    | nil => simp [keepVal] at hk
    | cons v rest => rfl
  | jobj fs =>
    cases fs with
    | nil => exact absurd rfl hobj
    | cons k v rest => rfl

mutual

theorem removeEmptyFields_idem : ∀ v : JValue,
    removeEmptyFields (removeEmptyFields v) = removeEmptyFields v
  | JValue.undef => rfl
  | JValue.jnull => rfl
  | JValue.jbool _ => rfl
  | JValue.jnum _ => rfl
  | JValue.jstr _ => rfl
  | JValue.jarr xs => by
    simp only [removeEmptyFields]
    rw [cleanArr_idem xs]
  | JValue.jobj fs => by
    simp only [removeEmptyFields]
    cases h : cleanObj fs with
    | nil => rfl
    | cons k w rest =>
      have h2 : cleanObj (JObj.cons k w rest) = JObj.cons k w rest := by
        rw [← h]
        exact cleanObj_idem fs
      simp only [removeEmptyFields, h2]

theorem cleanArr_idem : ∀ xs : JArr, cleanArr (cleanArr xs) = cleanArr xs
  | JArr.nil => rfl
  | JArr.cons v rest => by
    simp only [cleanArr]
    by_cases hk : keepVal (removeEmptyFields v) = true
    · rw [if_pos hk]
      simp only [cleanArr]
      rw [removeEmptyFields_idem v, if_pos hk, cleanArr_idem rest]
    · rw [if_neg hk]
      exact cleanArr_idem rest

theorem cleanObj_idem : ∀ fs : JObj, cleanObj (cleanObj fs) = cleanObj fs
  | JObj.nil => rfl
  | JObj.cons k v rest => by
    simp only [cleanObj]
    by_cases hk : keepVal (removeEmptyFields v) = true
    · rw [if_pos hk]
      simp only [cleanObj]
      rw [removeEmptyFields_idem v, if_pos hk, cleanObj_idem rest]
    · rw [if_neg hk]
      exact cleanObj_idem rest

end

mutual

theorem innerClean_rem : ∀ v : JValue, innerClean (removeEmptyFields v) = true
  | JValue.undef => rfl
  | JValue.jnull => rfl
  | JValue.jbool _ => rfl
  | JValue.jnum _ => rfl
  | JValue.jstr _ => rfl
  | JValue.jarr xs => by
    simp only [removeEmptyFields, innerClean]
    exact innerCleanArr_cleanArr xs
  | JValue.jobj fs => by
    simp only [removeEmptyFields]
    cases h : cleanObj fs with
    | nil => rfl
    | cons k w rest =>
      have h2 := innerCleanObj_cleanObj fs
      rw [h] at h2
      simpa [innerClean] using h2

theorem innerCleanArr_cleanArr : ∀ xs : JArr, innerCleanArr (cleanArr xs) = true
  | JArr.nil => rfl
  | JArr.cons v rest => by
    simp only [cleanArr]
    by_cases hk : keepVal (removeEmptyFields v) = true
    · rw [if_pos hk]
      simp only [innerCleanArr]
      have h1 : isEmptyVal (removeEmptyFields v) = false :=
        keep_isEmptyVal_false hk (rem_ne_emptyObj v)
      rw [h1]
      simp [innerClean_rem v, innerCleanArr_cleanArr rest]
    · rw [if_neg hk]
      exact innerCleanArr_cleanArr rest

theorem innerCleanObj_cleanObj : ∀ fs : JObj, innerCleanObj (cleanObj fs) = true
  | JObj.nil => rfl
  | JObj.cons k v rest => by
    simp only [cleanObj]
    by_cases hk : keepVal (removeEmptyFields v) = true
    · rw [if_pos hk]
      simp only [innerCleanObj]
      have h1 : isEmptyVal (removeEmptyFields v) = false :=
        keep_isEmptyVal_false hk (rem_ne_emptyObj v)
      rw [h1]
      simp [innerClean_rem v, innerCleanObj_cleanObj rest]
    · rw [if_neg hk]
      exact innerCleanObj_cleanObj rest

end

/-- C9 counterexample: the claim that the result never contains (at any
depth, including the top) a null/undefined/empty value fails already at
depth 0: null is returned as-is, an empty string is returned as-is, an
empty array is returned as-is, and an empty object becomes undefined. -/
theorem c9_counterexample :
    removeEmptyFields JValue.jnull = JValue.jnull
    ∧ isEmptyVal (removeEmptyFields JValue.jnull) = true
    ∧ removeEmptyFields (JValue.jstr "") = JValue.jstr ""
    ∧ removeEmptyFields (JValue.jarr JArr.nil) = JValue.jarr JArr.nil
    ∧ removeEmptyFields (JValue.jobj JObj.nil) = JValue.undef
    ∧ isEmptyVal (removeEmptyFields (JValue.jobj JObj.nil)) = true :=
  ⟨rfl, rfl, rfl, rfl, rfl, rfl⟩

/-- C9 amended: `removeEmptyFields` is idempotent, and no STRICT
descendant of its result is null, undefined, an empty string, an empty
array or an empty object; the top-level value itself may still be null,
undefined, an empty string or an empty array (such inputs pass through
unchanged and an emptied top-level array stays), though it is never an
empty object (an empty object becomes undefined instead). -/
theorem c9_amended_idempotent_inner_clean (v : JValue) :
    removeEmptyFields (removeEmptyFields v) = removeEmptyFields v
    ∧ innerClean (removeEmptyFields v) = true
    ∧ removeEmptyFields v ≠ JValue.jobj JObj.nil :=
  ⟨removeEmptyFields_idem v, innerClean_rem v, rem_ne_emptyObj v⟩
